import Mathlib

/-!
StoreFrontServer: the request handlers of `src/index.js`

A shallow embedding of the Express route handlers of `src/index.js`.

* JSON request data is a `JsValue`; an absent field is `JsValue.undefined`.
* The two regular-expression literals of the registration handler are terms of a
  small regular-expression type, matched by Brzozowski derivatives.
* The collaborators (`bcrypt.hash`, `bcrypt.compare`, `pg.query`) are fields of an
  `Env`; each returns `Except JsError _`, the error being what the awaited promise
  rejects with.
* A handler is a function from the environment and the request to the list of
  effects it performs, in order: credential calls, store queries, and the
  `res.status(..).json(..)` / `res.send(..)` calls.  `console.log` / `console.error`
  lines are not recorded.
-/

namespace StoreFront

/-! ## JavaScript values -/

/-- The JavaScript values a parsed JSON body can hold, plus `undefined` for an absent
property.  Numbers are the integers (decimal rendering, as `String(n)` gives for an
integer below `10^21` in magnitude). -/
inductive JsValue where
  | undefined : JsValue
  | null : JsValue
  | bool (b : Bool) : JsValue
  | number (n : Int) : JsValue
  | string (s : String) : JsValue
  | array (xs : List JsValue) : JsValue
  | object (fields : List (String × JsValue)) : JsValue

namespace JsValue

/-- JavaScript `ToBoolean`: `undefined`, `null`, `false`, `0` and `""` are falsy,
every array and object is truthy. -/
def truthy : JsValue → Bool
  | undefined => false
  | null => false
  | bool b => b
  | number n => n != 0
  | string s => s != ""
  | array _ => true
  | object _ => true

/-- Property lookup in a list of fields: the value of the first field named `k`,
`undefined` when there is none. -/
def lookup (k : String) : List (String × JsValue) → JsValue
  | [] => undefined
  | (k', v) :: rest => if k' = k then v else lookup k rest

/-- The test `Array.isArray(v)`. -/
def isArray : JsValue → Bool
  | array _ => true
  | _ => false

/-- The strict comparison `v === s` against a string literal `s`. -/
def strictEqString (v : JsValue) (s : String) : Bool :=
  match v with
  | string t => t == s
  | _ => false

mutual
/-- JavaScript `ToString`, which `RegExp.prototype.test` applies to its argument. -/
def toStr : JsValue → String
  | undefined => "undefined"
  | null => "null"
  | bool true => "true"
  | bool false => "false"
  | number n => toString n
  | string s => s
  | array xs => joinStr xs
  | object _ => "[object Object]"
/-- The text of `Array.prototype.join(",")`: `undefined` and `null` elements render as
the empty string. -/
def joinStr : List JsValue → String
  | [] => ""
  | [x] => elemStr x
  | x :: y :: rest => elemStr x ++ "," ++ joinStr (y :: rest)
/-- One element of a joined array. -/
def elemStr : JsValue → String
  | undefined => ""
  | null => ""
  | bool true => "true"
  | bool false => "false"
  | number n => toString n
  | string s => s
  | array xs => joinStr xs
  | object _ => "[object Object]"
end

end JsValue

/-! ## Regular expressions -/

/-- Regular expressions over characters.  A character class is a list of inclusive code
point ranges; a single character `c` of a class is the range `(c, c)`. -/
inductive Regex where
  | empty : Regex
  | eps : Regex
  | cls (ranges : List (Nat × Nat)) : Regex
  | seq (a b : Regex) : Regex
  | alt (a b : Regex) : Regex
  | star (a : Regex) : Regex

namespace Regex

/-- The class `ranges` contains the character `c`. -/
def inClass (ranges : List (Nat × Nat)) (c : Char) : Bool :=
  ranges.any fun r => decide (r.1 ≤ c.toNat) && decide (c.toNat ≤ r.2)

/-- The expression matches the empty string. -/
def nullable : Regex → Bool
  | empty => false
  | eps => true
  | cls _ => false
  | seq a b => nullable a && nullable b
  | alt a b => nullable a || nullable b
  | star _ => true

/-- Brzozowski derivative of an expression by one character. -/
def deriv (c : Char) : Regex → Regex
  | empty => empty
  | eps => empty
  | cls ranges => if inClass ranges c then eps else empty
  | seq a b => if nullable a then alt (seq (deriv c a) b) (deriv c b) else seq (deriv c a) b
  | alt a b => alt (deriv c a) (deriv c b)
  | star a => seq (deriv c a) (star a)

/-- The expression matches the whole list of characters. -/
def matchesChars (r : Regex) : List Char → Bool
  | [] => nullable r
  | c :: cs => matchesChars (deriv c r) cs

/-- The quantifier `+`: one or more. -/
def plus (a : Regex) : Regex := seq a (star a)

/-- The quantifier `{2,}`: two or more. -/
def atLeastTwo (a : Regex) : Regex := seq a (seq a (star a))

/-- A range `lo-hi` of a character class. -/
def range (lo hi : Char) : Nat × Nat := (lo.toNat, hi.toNat)

/-- A single character of a character class. -/
def single (c : Char) : Nat × Nat := (c.toNat, c.toNat)

/-- The call `regex.test(v)` for a pattern written between `^` and `$` without flags:
`v` is converted to a string and the pattern has to match all of it.  The classes of the
two patterns below hold ASCII ranges only, so a character outside the basic plane, two
code units in JavaScript, is outside every class either way. -/
def test (r : Regex) (v : JsValue) : Bool :=
  matchesChars r (JsValue.toStr v).toList

end Regex

/-- The literal `/^[a-zA-Z0-9.+-_]+@[a-zA-Z0-9.-]+\.[a-zA-Z]{2,}$/` (line 124).  In the
first class `+-_` is a range, from `+` to `_`. -/
def emailRegex : Regex :=
  .seq (.plus (.cls [Regex.range 'a' 'z', Regex.range 'A' 'Z', Regex.range '0' '9', Regex.single '.',
      Regex.range '+' '_']))
    (.seq (.cls [Regex.single '@'])
      (.seq (.plus (.cls [Regex.range 'a' 'z', Regex.range 'A' 'Z', Regex.range '0' '9', Regex.single '.',
          Regex.single '-']))
        (.seq (.cls [Regex.single '.'])
          (.atLeastTwo (.cls [Regex.range 'a' 'z', Regex.range 'A' 'Z'])))))

/-- The literal `/^[a-zA-z0-9!#@%\$\&]+$/` (line 125).  The second range is `A-z`. -/
def passwordRegex : Regex :=
  .plus (.cls [Regex.range 'a' 'z', Regex.range 'A' 'z', Regex.range '0' '9', Regex.single '!', Regex.single '#',
    Regex.single '@', Regex.single '%', Regex.single '$', Regex.single '&'])

/-! ## Collaborators and effects -/

/-- What an awaited promise rejects with: an error object, of which the handlers read
only the `code` property (`undefined` when the error has none). -/
structure JsError where
  code : JsValue
  message : String

/-- One row of a query result: the columns by name. -/
abbrev Row := List (String × JsValue)

/-- The object `pg.query` resolves with; the handlers read only `rows`. -/
structure QueryResult where
  rows : List Row

/-- The row `rows[0]` as a value: `undefined` when there is no row. -/
def QueryResult.first (result : QueryResult) : JsValue :=
  match result.rows with
  | [] => .undefined
  | row :: _ => .object row

/-- The array `result.rows` as a value. -/
def QueryResult.rowsValue (result : QueryResult) : JsValue :=
  .array (result.rows.map JsValue.object)

/-- A response written by a handler: the status given to `res.status` (200 when the
handler sets none), the first argument of `json` / `send`, and the further arguments
the call was written with. -/
structure Response where
  status : Nat
  body : JsValue
  extra : List JsValue

/-- The observable steps of a handler. -/
inductive Effect where
  | hash (data : JsValue) (rounds : Nat) : Effect
  | compare (data encrypted : JsValue) : Effect
  | query (text : String) (params : List JsValue) : Effect
  | respond (r : Response) : Effect

/-- The credential library and the connection pool.  `.error e` is a rejected promise. -/
structure Env where
  hash : JsValue → Nat → Except JsError String
  compare : JsValue → JsValue → Except JsError Bool
  query : String → List JsValue → Except JsError QueryResult

/-- The parsed request body `req.body`: an object, given by its properties. -/
abbrev Body := List (String × JsValue)

/-- The responses among the effects of a run, in order. -/
def responses : List Effect → List Response
  | [] => []
  | .respond r :: rest => r :: responses rest
  | _ :: rest => responses rest

/-- The store queries among the effects of a run, in order. -/
def queries : List Effect → List (String × List JsValue)
  | [] => []
  | .query text params :: rest => (text, params) :: queries rest
  | _ :: rest => queries rest

/-- The credential-hash calls among the effects of a run, in order. -/
def hashes : List Effect → List (JsValue × Nat)
  | [] => []
  | .hash data rounds :: rest => (data, rounds) :: hashes rest
  | _ :: rest => hashes rest

/-- Shorthand for an object with string-valued properties only. -/
def strObject (fields : List (String × String)) : JsValue :=
  .object (fields.map fun kv => (kv.1, JsValue.string kv.2))

/-! ## The handlers -/

/-- The constant `saltRounds` (line 49). -/
def saltRounds : Nat := 5

/-- Statement text of `GET /api` (line 65). -/
def inventoryQuery : String :=
  "SELECT id, product_name, category , price, sku, dimensions, status FROM Inventory"

/-- Statement text of `GET /api/product/:id` (line 76). -/
def productByIdQuery : String :=
  "SELECT id, product_name, category, price, sku, supplier, dimensions, status from Inventory WHERE id = $1"

/-- Statement text of `POST /api/product/` (line 100). -/
def productsQuery : String :=
  "SELECT id, product_name, category, price, sku, supplier, dimensions, status from Inventory WHERE id = ANY($1)"

/-- Statement text `userInfoQuery` of `POST /api/users/` (line 153). -/
def userInfoQuery : String :=
  "INSERT INTO usersdb(username, email, password) VALUES ($1, $2, $3)"

/-- Statement text `userInfoInput` of `POST /api/login/` (line 183). -/
def userInfoInput : String :=
  "SELECT username, password FROM usersdb WHERE username = $1"

/-- Handler of `GET /api` (lines 63-71). -/
def getApi (env : Env) : List Effect :=
  match env.query inventoryQuery [] with
  | .error _ =>
    [.query inventoryQuery [], .respond ⟨500, .string "Server Error", []⟩]
  | .ok data =>
    [.query inventoryQuery [], .respond ⟨200, data.rowsValue, []⟩]

/-- Handler of `GET /api/product/:id` (lines 73-91); `id` is `req.params.id`. -/
def getProduct (env : Env) (id : String) : List Effect :=
  match env.query productByIdQuery [.string id] with
  | .error _ =>
    [.query productByIdQuery [.string id], .respond ⟨500, .string "Server Error", []⟩]
  | .ok result =>
    match result.rows with
    | [] =>
      [.query productByIdQuery [.string id],
        .respond ⟨404, strObject [("message", "Product Not Found.")], []⟩]
    | row :: _ =>
      [.query productByIdQuery [.string id],
        .respond ⟨200, .object [("message", .string "Received"), ("value", .object row)], []⟩]

/-- Handler of `POST /api/product/` (lines 93-116).  The `catch` block only logs. -/
def postProduct (env : Env) (body : Body) : List Effect :=
  let keys := JsValue.lookup "keys" body
  if !keys.isArray then
    [.respond ⟨400, strObject [("message", "error with array")], []⟩]
  else
    match env.query productsQuery [keys] with
    | .error _ => [.query productsQuery [keys]]
    | .ok result =>
      [.query productsQuery [keys], .respond ⟨200, result.rowsValue, []⟩]

/-- The `catch` block of `POST /api/users/` (lines 159-166). -/
def usersCatch (err : JsError) : List Effect :=
  if err.code.strictEqString "23505" then
    [.respond ⟨409,
      .object [("errors", strObject [("email", "Email or username already exists")])], []⟩]
  else
    [.respond ⟨500, strObject [("error", "Database Error: User Insert Error")], []⟩]

/-- Handler of `POST /api/users/` (lines 119-167).  The format tests of lines 134 and 144
sit inside the branches taken when the field is falsy. -/
def postUsers (env : Env) (body : Body) : List Effect :=
  let username := JsValue.lookup "username" body
  let email := JsValue.lookup "email" body
  let password := JsValue.lookup "password" body
  if !username.truthy then
    [.respond ⟨400, strObject [("error", "Username field is empty.")], []⟩]
  else if !email.truthy then
    if !emailRegex.test email then
      [.respond ⟨400, .object [("error", .string "Email did not match format"),
        ("errors", strObject [("email", "Email not valid.")])], []⟩]
    else
      [.respond ⟨400, .object [("error", .string "Email field is empty."),
        ("errors", strObject [("email", "Email is empty.")])], []⟩]
  else if !password.truthy then
    if !passwordRegex.test password then
      [.respond ⟨400, strObject [("error", "Password did not match regex")],
        [strObject [("password", "Password not valid.")]]⟩]
    else
      [.respond ⟨400, .object [("error", .string "Password field is empty."),
        ("errors", strObject [("password", "Password empty.")])], []⟩]
  else
    match env.hash password saltRounds with
    | .error err => .hash password saltRounds :: usersCatch err
    | .ok hashedPassword =>
      match env.query userInfoQuery [username, email, .string hashedPassword] with
      | .error err =>
        .hash password saltRounds
          :: .query userInfoQuery [username, email, .string hashedPassword]
          :: usersCatch err
      | .ok result =>
        [.hash password saltRounds,
          .query userInfoQuery [username, email, .string hashedPassword],
          .respond ⟨200, .object [("message", .string "User Added:"), ("user", result.first)], []⟩]

/-- The response of the `catch` block of `POST /api/login/` (lines 200-204). -/
def loginCatch : Effect :=
  .respond ⟨500, strObject [("error", "Server error.")], []⟩

/-- Handler of `POST /api/login/` (lines 169-205). -/
def postLogin (env : Env) (body : Body) : List Effect :=
  let username := JsValue.lookup "username" body
  let password := JsValue.lookup "password" body
  if !username.truthy || !password.truthy then
    [.respond ⟨400, strObject [("error", "Username and Password field is empty.")], []⟩]
  else
    match env.hash password saltRounds with
    | .error _ => [.hash password saltRounds, loginCatch]
    | .ok _ =>
      match env.query userInfoInput [username] with
      | .error _ => [.hash password saltRounds, .query userInfoInput [username], loginCatch]
      | .ok result =>
        match result.rows with
        | [] =>
          [.hash password saltRounds, .query userInfoInput [username],
            .respond ⟨401, strObject [("error", "Invalid username and password.")], []⟩]
        | row :: _ =>
          let verifyPassword := JsValue.lookup "password" row
          match env.compare password verifyPassword with
          | .error _ =>
            [.hash password saltRounds, .query userInfoInput [username],
              .compare password verifyPassword, loginCatch]
          | .ok isMatch =>
            if isMatch then
              [.hash password saltRounds, .query userInfoInput [username],
                .compare password verifyPassword,
                .respond ⟨200, strObject [("message", "Login successful.")], []⟩]
            else
              [.hash password saltRounds, .query userInfoInput [username],
                .compare password verifyPassword,
                .respond ⟨401, strObject [("message", "Username or password were incorrect.")], []⟩]

/-- Handler of `GET /health` (lines 207-209); `uptime` is the value of `process.uptime()`. -/
def getHealth (uptime : JsValue) : List Effect :=
  [.respond ⟨200, .object [("status", .string "OK"), ("uptime", uptime)], []⟩]

/-! ## Sample collaborators and requests -/

/-- A store with one user, `bob`, whose stored hash is `H(secret)`; every statement
succeeds and a select by username returns the matching rows. -/
def sampleEnv : Env where
  hash := fun data _ => .ok ("H(" ++ data.toStr ++ ")")
  compare := fun data encrypted => .ok (encrypted.strictEqString ("H(" ++ data.toStr ++ ")"))
  query := fun text params =>
    if text = userInfoInput then
      match params with
      | [.string "bob"] =>
        .ok ⟨[[("username", .string "bob"), ("password", .string "H(secret)")]]⟩
      | _ => .ok ⟨[]⟩
    else .ok ⟨[]⟩

/-- A store whose every statement is rejected with a connection error. -/
def downEnv : Env where
  hash := sampleEnv.hash
  compare := sampleEnv.compare
  query := fun _ _ => .error ⟨.string "ECONNREFUSED", "connect ECONNREFUSED"⟩

/-- A store whose every statement is rejected with a unique-constraint violation. -/
def duplicateEnv : Env where
  hash := sampleEnv.hash
  compare := sampleEnv.compare
  query := fun _ _ => .error ⟨.string "23505", "duplicate key value violates unique constraint"⟩

/-- A registration whose email has no `@`. -/
def unmatchedEmailBody : Body :=
  [("username", .string "bob"), ("email", .string "bad"), ("password", .string "secret")]

/-- A registration whose password holds a space. -/
def unmatchedPasswordBody : Body :=
  [("username", .string "bob"), ("email", .string "bob@shop.io"),
    ("password", .string "pass word")]

/-- A registration without an `email` property. -/
def absentEmailBody : Body :=
  [("username", .string "bob"), ("password", .string "secret")]

/-- A registration whose email is the empty string. -/
def emptyEmailBody : Body :=
  [("username", .string "bob"), ("email", .string ""), ("password", .string "secret")]

/-- A registration without a `password` property. -/
def absentPasswordBody : Body :=
  [("username", .string "bob"), ("email", .string "bob@shop.io")]

/-- A registration whose password is the empty string. -/
def emptyPasswordBody : Body :=
  [("username", .string "bob"), ("email", .string "bob@shop.io"), ("password", .string "")]

/-- A registration that every check of the specification accepts. -/
def validBody : Body :=
  [("username", .string "bob"), ("email", .string "bob@shop.io"),
    ("password", .string "secret")]

/-- The registration `{username: "", email: "bad", password: ""}`. -/
def allInvalidBody : Body :=
  [("username", .string ""), ("email", .string "bad"), ("password", .string "")]

/-- A bulk lookup of one id. -/
def oneKeyBody : Body := [("keys", .array [.number 999999999])]

/-- A bulk lookup whose `keys` is a string. -/
def stringKeysBody : Body := [("keys", .string "not-an-array")]

/-- A login of `bob` with a password that is not the registered one. -/
def wrongPasswordBody : Body :=
  [("username", .string "bob"), ("password", .string "guess")]

/-! ## Auxiliary facts -/

/-- Past the three emptiness tests the registration handler is its hash-then-insert tail. -/
theorem postUsers_of_truthy (env : Env) (body : Body)
    (hu : (JsValue.lookup "username" body).truthy = true)
    (he : (JsValue.lookup "email" body).truthy = true)
    (hp : (JsValue.lookup "password" body).truthy = true) :
    postUsers env body =
      match env.hash (JsValue.lookup "password" body) saltRounds with
      | .error err => .hash (JsValue.lookup "password" body) saltRounds :: usersCatch err
      | .ok hashedPassword =>
        match env.query userInfoQuery [JsValue.lookup "username" body,
          JsValue.lookup "email" body, .string hashedPassword] with
        | .error err =>
          .hash (JsValue.lookup "password" body) saltRounds
            :: .query userInfoQuery [JsValue.lookup "username" body,
                JsValue.lookup "email" body, .string hashedPassword]
            :: usersCatch err
        | .ok result =>
          [.hash (JsValue.lookup "password" body) saltRounds,
            .query userInfoQuery [JsValue.lookup "username" body,
              JsValue.lookup "email" body, .string hashedPassword],
            .respond ⟨200, .object [("message", .string "User Added:"),
              ("user", result.first)], []⟩] := by
  simp only [postUsers, hu, he, hp, Bool.not_true, Bool.false_eq_true, if_false]

/-- The `catch` block of the registration handler makes no credential call. -/
theorem hashes_usersCatch (err : JsError) : hashes (usersCatch err) = [] := by
  unfold usersCatch
  split <;> rfl

/-- The `catch` block of the registration handler writes one response. -/
theorem responses_usersCatch (err : JsError) : responses (usersCatch err) =
    if err.code.strictEqString "23505" then
      [⟨409, .object [("errors", strObject [("email", "Email or username already exists")])], []⟩]
    else [⟨500, strObject [("error", "Database Error: User Insert Error")], []⟩] := by
  unfold usersCatch
  split <;> rfl

/-- Past the three emptiness tests the registration handler hashes the password once. -/
theorem hashes_postUsers_of_truthy (env : Env) (body : Body)
    (hu : (JsValue.lookup "username" body).truthy = true)
    (he : (JsValue.lookup "email" body).truthy = true)
    (hp : (JsValue.lookup "password" body).truthy = true) :
    hashes (postUsers env body) = [(JsValue.lookup "password" body, saltRounds)] := by
  rw [postUsers_of_truthy env body hu he hp]
  cases env.hash (JsValue.lookup "password" body) saltRounds with
  | error err => simp [hashes, hashes_usersCatch]
  | ok hashed =>
    simp only []
    cases env.query userInfoQuery [JsValue.lookup "username" body,
        JsValue.lookup "email" body, .string hashed] with
    | error err => simp [hashes, hashes_usersCatch]
    | ok result => rfl

/-- No falsy value matches `emailRegex`: the test of line 134 fails whenever it runs. -/
theorem emailRegex_test_of_falsy (v : JsValue) (h : v.truthy = false) :
    emailRegex.test v = false := by
  cases v with
  | undefined => decide
  | null => decide
  | bool b =>
    have hb : b = false := by simpa [JsValue.truthy] using h
    subst hb
    decide
  | number n =>
    have hn : n = 0 := by simpa [JsValue.truthy] using h
    subst hn
    decide
  | string s =>
    have hs : s = "" := by simpa [JsValue.truthy] using h
    subst hs
    decide
  | array xs => simp [JsValue.truthy] at h
  | object fields => simp [JsValue.truthy] at h

/-- With a non-empty username and a falsy email the registration handler always takes the
format branch of line 136; the response of line 139 is not reachable. -/
theorem postUsers_of_falsy_email (env : Env) (body : Body)
    (hu : (JsValue.lookup "username" body).truthy = true)
    (he : (JsValue.lookup "email" body).truthy = false) :
    postUsers env body =
      [.respond ⟨400, .object [("error", .string "Email did not match format"),
        ("errors", .object [("email", .string "Email not valid.")])], []⟩] := by
  simp [postUsers, hu, he, emailRegex_test_of_falsy _ he, strObject]

/-! ## Theorems -/

/-- C1: at the registration `unmatchedEmailBody`, whose email `bad` does not match
`emailRegex`, the handler calls the hash and issues the insert (and answers 200 when the
store accepts it) instead of answering 400 with the email-invalid error. -/
theorem postUsers_unmatched_email_inserted :
    emailRegex.test (.string "bad") = false ∧
    (∀ env : Env, hashes (postUsers env unmatchedEmailBody) = [(.string "secret", 5)]) ∧
    postUsers sampleEnv unmatchedEmailBody =
      [.hash (.string "secret") 5,
        .query userInfoQuery [.string "bob", .string "bad", .string "H(secret)"],
        .respond ⟨200, .object [("message", .string "User Added:"), ("user", .undefined)], []⟩] :=
  ⟨by decide, fun env => hashes_postUsers_of_truthy env unmatchedEmailBody rfl rfl rfl, rfl⟩

/-- C2: at the registration `unmatchedPasswordBody`, whose password `pass word` holds a
space and does not match `passwordRegex`, the handler calls the hash on it and issues the
insert (and answers 200 when the store accepts it) instead of answering 400 with the
password-invalid error. -/
theorem postUsers_unmatched_password_inserted :
    passwordRegex.test (.string "pass word") = false ∧
    (∀ env : Env, hashes (postUsers env unmatchedPasswordBody) = [(.string "pass word", 5)]) ∧
    postUsers sampleEnv unmatchedPasswordBody =
      [.hash (.string "pass word") 5,
        .query userInfoQuery [.string "bob", .string "bob@shop.io", .string "H(pass word)"],
        .respond ⟨200, .object [("message", .string "User Added:"), ("user", .undefined)], []⟩] :=
  ⟨by decide, fun env => hashes_postUsers_of_truthy env unmatchedPasswordBody rfl rfl rfl, rfl⟩

/-- C3: when the username of a registration is absent or the empty string, whatever the
other fields and the collaborators are, the handler performs exactly one step, the
response 400 `{error: "Username field is empty."}`: no hash, no query, no other error. -/
theorem postUsers_username_empty (env : Env) (body : Body)
    (h : JsValue.lookup "username" body = .undefined
      ∨ JsValue.lookup "username" body = .string "") :
    postUsers env body =
        [.respond ⟨400, .object [("error", .string "Username field is empty.")], []⟩]
      ∧ hashes (postUsers env body) = []
      ∧ queries (postUsers env body) = [] := by
  have key : postUsers env body =
      [.respond ⟨400, .object [("error", .string "Username field is empty.")], []⟩] := by
    rcases h with h | h <;> simp [postUsers, h, JsValue.truthy, strObject]
  rw [key]
  exact ⟨rfl, rfl, rfl⟩

/-- Witness of C3 at `{username: "", email: "bad", password: ""}`. -/
theorem postUsers_username_empty_witness :
    (JsValue.lookup "username" allInvalidBody = .undefined
      ∨ JsValue.lookup "username" allInvalidBody = .string "")
    ∧ postUsers sampleEnv allInvalidBody =
        [.respond ⟨400, .object [("error", .string "Username field is empty.")], []⟩] :=
  ⟨Or.inr rfl, (postUsers_username_empty sampleEnv allInvalidBody (Or.inr rfl)).1⟩

/-- C4: at the bulk lookup `oneKeyBody`, whose `keys` is an array, with a store that
rejects the query, the handler issues the query and writes no response at all, where the
claim has status 500; the handler of `GET /api` answers 500 with the same store. -/
theorem postProduct_store_failure_no_response :
    postProduct downEnv oneKeyBody
        = [.query productsQuery [.array [.number 999999999]]]
      ∧ responses (postProduct downEnv oneKeyBody) = []
      ∧ responses (getApi downEnv) = [⟨500, .string "Server Error", []⟩] :=
  ⟨rfl, rfl, rfl⟩

/-- C5: at the registrations `absentEmailBody` and `emptyEmailBody` the handler answers
400 with the format error `Email did not match format` / `Email not valid.`, not with the
email-empty error. -/
theorem postUsers_empty_email_format_error :
    (∀ env : Env, postUsers env absentEmailBody =
      [.respond ⟨400, .object [("error", .string "Email did not match format"),
        ("errors", .object [("email", .string "Email not valid.")])], []⟩])
    ∧ (∀ env : Env, postUsers env emptyEmailBody =
      [.respond ⟨400, .object [("error", .string "Email did not match format"),
        ("errors", .object [("email", .string "Email not valid.")])], []⟩]) :=
  ⟨fun _ => rfl, fun _ => rfl⟩

/-- C6: at the registration `emptyPasswordBody` the handler answers 400 with the format
error `Password did not match regex`, not with the password-empty error; at
`absentPasswordBody` it answers with the password-empty error, the text `undefined`
matching `passwordRegex`. -/
theorem postUsers_empty_password_format_error :
    (∀ env : Env, postUsers env emptyPasswordBody =
      [.respond ⟨400, .object [("error", .string "Password did not match regex")],
        [.object [("password", .string "Password not valid.")]]⟩])
    ∧ (∀ env : Env, postUsers env absentPasswordBody =
      [.respond ⟨400, .object [("error", .string "Password field is empty."),
        ("errors", .object [("password", .string "Password empty.")])], []⟩]) :=
  ⟨fun _ => rfl, fun _ => rfl⟩

/-- C7: for a login whose username and password are non-empty, when the hash, the select
and the comparison (made when a row came back) all succeed, the handler writes exactly one
response; its status is 200 exactly when the store returned a first row and
`compare(password, row.password)` is true, and it is 401 otherwise. -/
theorem postLogin_status (env : Env) (body : Body) (hashed : String) (result : QueryResult)
    (hu : (JsValue.lookup "username" body).truthy = true)
    (hp : (JsValue.lookup "password" body).truthy = true)
    (hhash : env.hash (JsValue.lookup "password" body) saltRounds = .ok hashed)
    (hquery : env.query userInfoInput [JsValue.lookup "username" body] = .ok result)
    (hcompare : ∀ row rest, result.rows = row :: rest →
      ∃ b, env.compare (JsValue.lookup "password" body) (JsValue.lookup "password" row)
        = .ok b) :
    ∃ r, responses (postLogin env body) = [r]
      ∧ (r.status = 200 ↔ ∃ row rest, result.rows = row :: rest
          ∧ env.compare (JsValue.lookup "password" body) (JsValue.lookup "password" row)
            = .ok true)
      ∧ (r.status = 200 ∨ r.status = 401) := by
  cases hrows : result.rows with
  | nil =>
    refine ⟨⟨401, strObject [("error", "Invalid username and password.")], []⟩, ?_, ?_, ?_⟩
    · simp [postLogin, hu, hp, hhash, hquery, hrows, responses]
    · simp
    · simp
  | cons row rest =>
    obtain ⟨b, hb⟩ := hcompare row rest hrows
    cases b with
    | true =>
      refine ⟨⟨200, strObject [("message", "Login successful.")], []⟩, ?_, ?_, ?_⟩
      · simp [postLogin, hu, hp, hhash, hquery, hrows, hb, responses]
      · simp [hb]
      · simp
    | false =>
      refine ⟨⟨401, strObject [("message", "Username or password were incorrect.")], []⟩,
        ?_, ?_, ?_⟩
      · simp [postLogin, hu, hp, hhash, hquery, hrows, hb, responses]
      · simp [hb]
      · simp

/-- Witness of C7: `bob` is registered in `sampleEnv` and the password `guess` is not
his, so the one response has a status other than 200, and 200 or 401. -/
theorem postLogin_status_witness :
    ∃ r, responses (postLogin sampleEnv wrongPasswordBody) = [r]
      ∧ (r.status = 200 ↔ ∃ row rest,
          ([[("username", .string "bob"), ("password", .string "H(secret)")]] : List Row)
            = row :: rest
          ∧ sampleEnv.compare (.string "guess") (JsValue.lookup "password" row) = .ok true)
      ∧ (r.status = 200 ∨ r.status = 401) :=
  postLogin_status sampleEnv wrongPasswordBody "H(guess)"
    ⟨[[("username", .string "bob"), ("password", .string "H(secret)")]]⟩ rfl rfl rfl rfl
    (fun _ _ _ => ⟨_, rfl⟩)

/-- C8: the handler of `POST /api/product/` answers 400 `{message: "error with array"}`
without a query when `keys` is not an array; when `keys` is an array and the query
`id = ANY($1)` bound to `keys` succeeds, it issues that one query and answers 200 with
exactly the rows the store returned, the empty array when the store returned none. -/
theorem postProduct_spec (env : Env) (body : Body) :
    ((JsValue.lookup "keys" body).isArray = false →
      postProduct env body =
        [.respond ⟨400, .object [("message", .string "error with array")], []⟩])
    ∧ (∀ result : QueryResult, (JsValue.lookup "keys" body).isArray = true →
        env.query productsQuery [JsValue.lookup "keys" body] = .ok result →
        postProduct env body =
          [.query productsQuery [JsValue.lookup "keys" body],
            .respond ⟨200, .array (result.rows.map JsValue.object), []⟩])
    ∧ ((JsValue.lookup "keys" body).isArray = true →
        env.query productsQuery [JsValue.lookup "keys" body] = .ok ⟨[]⟩ →
        responses (postProduct env body) = [⟨200, .array [], []⟩]) := by
  refine ⟨?_, ?_, ?_⟩
  · intro h
    simp [postProduct, h, strObject]
  · intro result h hq
    simp [postProduct, h, hq, QueryResult.rowsValue]
  · intro h hq
    simp [postProduct, h, hq, QueryResult.rowsValue, responses]

/-- Witness of C8: a string for `keys` gives 400 without a query; an array of one id that
matches nothing gives 200 with the empty array. -/
theorem postProduct_spec_witness :
    postProduct sampleEnv stringKeysBody =
        [.respond ⟨400, .object [("message", .string "error with array")], []⟩]
    ∧ postProduct sampleEnv oneKeyBody =
        [.query productsQuery [.array [.number 999999999]],
          .respond ⟨200, .array [], []⟩]
    ∧ responses (postProduct sampleEnv oneKeyBody) = [⟨200, .array [], []⟩] :=
  ⟨(postProduct_spec sampleEnv stringKeysBody).1 rfl,
    (postProduct_spec sampleEnv oneKeyBody).2.1 ⟨[]⟩ rfl rfl,
    (postProduct_spec sampleEnv oneKeyBody).2.2 rfl rfl⟩

/-- C9: for a registration with non-empty username, email and password, a rejected insert
whose error code is `23505` gives the one response 409; a rejected hash or a rejected
insert whose error code is not `23505` gives the one response 500 with the constant body
`{error: "Database Error: User Insert Error"}`. -/
theorem postUsers_failure_status (env : Env) (body : Body)
    (hu : (JsValue.lookup "username" body).truthy = true)
    (he : (JsValue.lookup "email" body).truthy = true)
    (hp : (JsValue.lookup "password" body).truthy = true) :
    (∀ hashed err, env.hash (JsValue.lookup "password" body) saltRounds = .ok hashed →
        env.query userInfoQuery [JsValue.lookup "username" body,
          JsValue.lookup "email" body, .string hashed] = .error err →
        err.code = .string "23505" →
        responses (postUsers env body) =
          [⟨409, .object [("errors",
            .object [("email", .string "Email or username already exists")])], []⟩])
    ∧ (∀ err, env.hash (JsValue.lookup "password" body) saltRounds = .error err →
        err.code.strictEqString "23505" = false →
        responses (postUsers env body) =
          [⟨500, .object [("error", .string "Database Error: User Insert Error")], []⟩])
    ∧ (∀ hashed err, env.hash (JsValue.lookup "password" body) saltRounds = .ok hashed →
        env.query userInfoQuery [JsValue.lookup "username" body,
          JsValue.lookup "email" body, .string hashed] = .error err →
        err.code.strictEqString "23505" = false →
        responses (postUsers env body) =
          [⟨500, .object [("error", .string "Database Error: User Insert Error")], []⟩]) := by
  rw [postUsers_of_truthy env body hu he hp]
  refine ⟨?_, ?_, ?_⟩
  · intro hashed err hh hq hc
    simp [hh, hq, responses, responses_usersCatch, hc, JsValue.strictEqString, strObject]
  · intro err hh hc
    simp [hh, responses, responses_usersCatch, hc, strObject]
  · intro hashed err hh hq hc
    simp [hh, hq, responses, responses_usersCatch, hc, strObject]

/-- Witness of C9: a valid registration against a store that reports a duplicate key. -/
theorem postUsers_failure_status_witness :
    responses (postUsers duplicateEnv validBody) =
      [⟨409, .object [("errors",
        .object [("email", .string "Email or username already exists")])], []⟩] :=
  (postUsers_failure_status duplicateEnv validBody rfl rfl rfl).1 "H(secret)"
    ⟨.string "23505", "duplicate key value violates unique constraint"⟩ rfl rfl rfl

/-- C10: every query the registration handler issues has the constant text
`userInfoQuery` and exactly three bound values: the request's username, its email, and
the string the hash returned for the request's password at work factor 5. -/
theorem postUsers_insert_params (env : Env) (body : Body) (text : String)
    (params : List JsValue) (h : Effect.query text params ∈ postUsers env body) :
    text = "INSERT INTO usersdb(username, email, password) VALUES ($1, $2, $3)"
      ∧ ∃ hashed, env.hash (JsValue.lookup "password" body) 5 = .ok hashed
        ∧ params = [JsValue.lookup "username" body, JsValue.lookup "email" body,
            .string hashed] := by
  have hcatch : ∀ err, Effect.query text params ∉ usersCatch err := by
    intro err
    unfold usersCatch
    split <;> simp
  by_cases hu : (JsValue.lookup "username" body).truthy = true
  · by_cases he : (JsValue.lookup "email" body).truthy = true
    · by_cases hp : (JsValue.lookup "password" body).truthy = true
      · rw [postUsers_of_truthy env body hu he hp] at h
        cases hh : env.hash (JsValue.lookup "password" body) saltRounds with
        | error err =>
          rw [hh] at h
          simp only [List.mem_cons, reduceCtorEq, false_or] at h
          exact absurd h (hcatch err)
        | ok hashed =>
          rw [hh] at h
          simp only [] at h
          cases hq : env.query userInfoQuery [JsValue.lookup "username" body,
              JsValue.lookup "email" body, .string hashed] with
          | error err =>
            rw [hq] at h
            simp only [List.mem_cons, reduceCtorEq, false_or, Effect.query.injEq] at h
            rcases h with ⟨ht, hps⟩ | h
            · exact ⟨ht, hashed, hh, hps⟩
            · exact absurd h (hcatch err)
          | ok result =>
            rw [hq] at h
            simp only [List.mem_cons, reduceCtorEq, false_or, or_false, Effect.query.injEq,
              List.mem_singleton, List.not_mem_nil] at h
            exact ⟨h.1, hashed, hh, h.2⟩
      · have hp' : (JsValue.lookup "password" body).truthy = false := by simpa using hp
        simp only [postUsers, hu, he, hp', Bool.not_true, Bool.not_false, Bool.false_eq_true,
          if_false, if_true] at h
        split at h <;> simp at h
    · have he' : (JsValue.lookup "email" body).truthy = false := by simpa using he
      simp only [postUsers, hu, he', Bool.not_true, Bool.not_false, Bool.false_eq_true,
        if_false, if_true] at h
      split at h <;> simp at h
  · have hu' : (JsValue.lookup "username" body).truthy = false := by simpa using hu
    simp [postUsers, hu'] at h

/-- Witness of C10: the insert issued for `validBody` against `sampleEnv`. -/
theorem postUsers_insert_params_witness :
    Effect.query userInfoQuery [.string "bob", .string "bob@shop.io", .string "H(secret)"]
        ∈ postUsers sampleEnv validBody
    ∧ (userInfoQuery = "INSERT INTO usersdb(username, email, password) VALUES ($1, $2, $3)"
      ∧ ∃ hashed, sampleEnv.hash (.string "secret") 5 = .ok hashed
        ∧ [JsValue.string "bob", .string "bob@shop.io", .string "H(secret)"]
          = [.string "bob", .string "bob@shop.io", .string hashed]) :=
  ⟨List.mem_cons_of_mem _ (List.mem_cons_self _ _),
    postUsers_insert_params sampleEnv validBody userInfoQuery
      [.string "bob", .string "bob@shop.io", .string "H(secret)"]
      (List.mem_cons_of_mem _ (List.mem_cons_self _ _))⟩

end StoreFront
